import Mathlib

/-!
Shallow embedding of `src/bird_app.py` (the bAInoculars kiosk application):
the frame buffer and acquisition loop, the capture/identify pipeline, and
the mode state machine (Explore / Arcade) with its freeze flags, pause
compensation and arcade scoring.

Conventions of the embedding:
* A `Frame` is its pixel data, modelled as `List Nat`.
* The classifier is passed in as a function `Frame → List Prediction`
  (the global `classifier` pipeline of the Python source); its scores are
  rationals standing for the Python floats.
* Wall-clock times (`time.time()` values) are rationals passed explicitly.
* File-system side effects (`cv2.imwrite`, `os.rename`) are reified as a
  list of `FileOp` values returned alongside the result, and classifier
  invocation is reified as a boolean flag.
-/

namespace BirdApp

/-- Pixel data of one camera frame. -/
abbrev Frame := List Nat

/-- One entry of the ranked prediction list returned by the classifier:
`{"label": ..., "score": ...}` with `score` a probability in `[0, 1]`. -/
structure Prediction where
  label : String
  score : ℚ
deriving DecidableEq, Repr

/-- A reified file-system side effect of the capture pipeline. -/
inductive FileOp where
  | save (path : String) (frame : Frame)
  | rename (oldPath newPath : String)
deriving DecidableEq, Repr

/-- Python `str.lower()`: lower-case every character. -/
def pyLower (s : String) : String :=
  ⟨s.data.map Char.toLower⟩

/-- Python `pat in s` on character lists: `pat` occurs as a contiguous
substring of `s`. -/
def charListContains (pat : List Char) : List Char → Bool
  | [] => pat.isEmpty
  | c :: rest => pat.isPrefixOf (c :: rest) || charListContains pat rest

/-- Python `s.replace(" ", "_")`: every space becomes an underscore (for
a one-character pattern, `str.replace` is a character-wise map). -/
def pyReplaceSpaceByUnderscore (s : String) : String :=
  ⟨s.data.map fun c => if c = ' ' then '_' else c⟩

/-- The exclusion test of `capture_and_identify` line 94:
`"looney" in label.lower()` (case-insensitive substring check). -/
def looneyExcluded (label : String) : Bool :=
  charListContains "looney".data (pyLower label).data

/-- Result of one run of `capture_and_identify` (lines 73–103), together
with its reified side effects. -/
structure CaptureOutcome where
  bird_name : String
  confidence : ℚ
  frame : Option Frame
  fileOps : List FileOp
  classifierCalled : Bool
deriving DecidableEq, Repr

/-- `capture_and_identify(mode)` (lines 73–103).  `global_frame` is the
snapshot of the frame buffer taken under `frame_lock`; `timestamp` is the
string `datetime.now().strftime("%Y%m%d_%H%M%S")`. -/
def capture_and_identify (mode : String) (global_frame : Option Frame)
    (classifier : Frame → List Prediction) (timestamp : String) : CaptureOutcome :=
  match global_frame with
  | none =>
      { bird_name := "Unknown", confidence := 0, frame := none,
        fileOps := [], classifierCalled := false }
  | some frame =>
      let raw_path := mode ++ "_birds/bird_" ++ timestamp ++ ".jpg"
      let predictions := classifier frame
      let resolved : String × ℚ :=
        match predictions with
        | [] => ("Unknown", 0)
        | top_pred :: _ =>
            let conf := top_pred.score * 100
            if 50 ≤ conf ∧ looneyExcluded top_pred.label = false then
              (top_pred.label, conf)
            else
              ("Unknown", conf)
      let safe_label := pyReplaceSpaceByUnderscore resolved.1
      let final_path := mode ++ "_birds/" ++ safe_label ++ "_" ++ timestamp ++ ".jpg"
      { bird_name := resolved.1, confidence := resolved.2, frame := some frame,
        fileOps := [FileOp.save raw_path frame, FileOp.rename raw_path final_path],
        classifierCalled := true }

/-- Which tkinter frame is currently packed (`show_frame`, lines 220–224):
exactly one of the menu, Explore and Arcade frames is displayed, and a
mode's periodic callbacks test `winfo_manager() == ""` to detect that
their frame is no longer the active one. -/
inductive Mode where
  | menu
  | explore
  | arcade
deriving DecidableEq, Repr

/-- The mutable state of `BAIApp` relevant to the mode state machine
(fields initialised in `__init__`, lines 154–164, plus the active frame). -/
structure AppState where
  active : Mode
  freeze_explore : Bool
  arcade_total : ℚ
  arcade_running : Bool
  freeze_arcade : Bool
  arcade_start_time : ℚ
  pause_start_time : ℚ
  arcade_score : Nat
  arcade_birds : Finset String
deriving DecidableEq

/-- Result of running a capture handler: the new application state plus
the reified side effects of the capture pipeline it invoked (if any). -/
structure HandlerResult where
  state : AppState
  fileOps : List BirdApp.FileOp
  classifierCalled : Bool
deriving DecidableEq

/-- `BAIApp.start_explore` (lines 233–237): shows the Explore frame and
clears the Explore freeze flag. -/
def start_explore (s : AppState) : AppState :=
  { s with active := Mode.explore, freeze_explore := false }

/-- `BAIApp.start_arcade` (lines 239–247): resets score and the seen-bird
set, starts the session, clears the freeze flag, records the start time
and shows the Arcade frame. -/
def start_arcade (s : AppState) (now : ℚ) : AppState :=
  { s with
    arcade_score := 0
    arcade_birds := ∅
    arcade_running := true
    freeze_arcade := false
    arcade_start_time := now
    active := Mode.arcade }

/-- `BAIApp.back_to_menu` (lines 226–228): stops any running Arcade
session and shows the menu frame. -/
def back_to_menu (s : AppState) : AppState :=
  { s with arcade_running := false, active := Mode.menu }

/-- `BAIApp.on_explore_capture` (lines 252–266).  A request while
`freeze_explore` is set is a no-op; otherwise the freeze flag is set and
the capture pipeline runs with mode string `"captured"`.  If the pipeline
reports no frame the freeze flag is cleared immediately; otherwise the
annotated result is displayed and a resume is scheduled (the freeze flag
stays set until `resume_explore` fires). -/
def on_explore_capture (s : AppState) (global_frame : Option BirdApp.Frame)
    (classifier : BirdApp.Frame → List BirdApp.Prediction) (ts : String) :
    HandlerResult :=
  if s.freeze_explore then
    { state := s, fileOps := [], classifierCalled := false }
  else
    let s1 := { s with freeze_explore := true }
    let out := BirdApp.capture_and_identify "captured" global_frame classifier ts
    match out.frame with
    | none =>
        { state := { s1 with freeze_explore := false },
          fileOps := out.fileOps, classifierCalled := out.classifierCalled }
    | some _ =>
        { state := s1, fileOps := out.fileOps,
          classifierCalled := out.classifierCalled }

/-- `BAIApp.resume_explore` (lines 268–269): unconditionally clears the
Explore freeze flag (no check that Explore is still the active mode). -/
def resume_explore (s : AppState) : AppState :=
  { s with freeze_explore := false }

/-- `BAIApp.on_arcade_capture` (lines 298–318).  A request while the
session is not running or while `freeze_arcade` is set is a no-op.
Otherwise the freeze flag is set, the pause start time is recorded, and
the capture pipeline runs with mode string `"arcade"`.  On a missing
frame the freeze flag is cleared immediately.  On an accepted result
(label not `"Unknown"` and confidence ≥ 50) a novel bird is added to
`arcade_birds` and the score is incremented by one. -/
def on_arcade_capture (s : AppState) (now : ℚ)
    (global_frame : Option BirdApp.Frame)
    (classifier : BirdApp.Frame → List BirdApp.Prediction) (ts : String) :
    HandlerResult :=
  if ¬ s.arcade_running ∨ s.freeze_arcade then
    { state := s, fileOps := [], classifierCalled := false }
  else
    let s1 := { s with freeze_arcade := true, pause_start_time := now }
    let out := BirdApp.capture_and_identify "arcade" global_frame classifier ts
    match out.frame with
    | none =>
        { state := { s1 with freeze_arcade := false },
          fileOps := out.fileOps, classifierCalled := out.classifierCalled }
    | some _ =>
        if out.bird_name ≠ "Unknown" ∧ 50 ≤ out.confidence then
          if out.bird_name ∉ s1.arcade_birds then
            { state := { s1 with
                arcade_birds := insert out.bird_name s1.arcade_birds,
                arcade_score := s1.arcade_score + 1 },
              fileOps := out.fileOps, classifierCalled := out.classifierCalled }
          else
            { state := s1, fileOps := out.fileOps,
              classifierCalled := out.classifierCalled }
        else
          { state := s1, fileOps := out.fileOps,
            classifierCalled := out.classifierCalled }

/-- `BAIApp.resume_arcade_update` (lines 320–323): unconditionally adds
the pause duration `now - pause_start_time` to the recorded session start
time and clears the Arcade freeze flag (no check that Arcade is still the
active mode). -/
def resume_arcade_update (s : AppState) (now : ℚ) : AppState :=
  { s with
    arcade_start_time := s.arcade_start_time + (now - s.pause_start_time)
    freeze_arcade := false }

/-- The countdown value computed by `update_arcade_frame` (lines 339–340):
`remaining = arcade_total - (now - arcade_start_time)`. -/
def arcade_remaining (s : AppState) (now : ℚ) : ℚ :=
  s.arcade_total - (now - s.arcade_start_time)

/-- `BAIApp.update_explore_frame` (lines 271–283): returns early if the
Explore frame is no longer displayed; otherwise, unless frozen, renders
the current frame-buffer snapshot.  The boolean reports whether the live
preview was updated; the application state is never modified. -/
def update_explore_frame (s : AppState) (global_frame : Option BirdApp.Frame) :
    AppState × Bool :=
  if s.active ≠ Mode.explore then (s, false)
  else if s.freeze_explore then (s, false)
  else (s, global_frame.isSome)

/-- `BAIApp.update_arcade_frame` (lines 335–356): returns early if the
session is not running or the Arcade frame is no longer displayed; while
frozen it only reschedules itself; otherwise it computes the remaining
time, ends the session when it has run out, and else renders the live
frame with countdown and score.  The boolean reports whether the display
was updated this tick. -/
def update_arcade_frame (s : AppState) (now : ℚ)
    (_global_frame : Option BirdApp.Frame) : AppState × Bool :=
  if ¬ s.arcade_running ∨ s.active ≠ Mode.arcade then (s, false)
  else if s.freeze_arcade then (s, false)
  else if arcade_remaining s now ≤ 0 then
    ({ s with arcade_running := false }, true)
  else (s, true)

/-! ### Acquisition loop (`CameraThread`, lines 40–64)

One cycle of `CameraThread.run` reads from the camera (`self.cap.read()`
yields `ret, frame`, modelled as an `Option Frame`) and, on success,
publishes a copy into the frame buffer under `frame_lock`; on failure the
buffer is left unchanged.  `CameraThread.__init__` performs one such read
up front (`global_frame = frame.copy() if ret else None`, starting from
the module-level `global_frame = None`). -/

/-- One cycle of `CameraThread.run` (lines 54–58), acting on the
frame-buffer content. -/
def publish_cycle (global_frame : Option Frame) (read_result : Option Frame) :
    Option Frame :=
  match read_result with
  | some frame => some frame
  | none => global_frame

/-- Specification-level notion, following the spec's words: the most
recent successfully-acquired frame of a sequence of read results (later
reads listed later), or `none` if no read ever succeeded. -/
def spec_lastSuccessfulFrame : List (Option Frame) → Option Frame
  | [] => none
  | r :: rs => Option.or (spec_lastSuccessfulFrame rs) r

/-! ### Frame buffer copy semantics (lines 34–35, 46–49, 55–58, 79–82)

The Python frame buffer is the global variable `global_frame`, holding a
reference to a mutable pixel array.  Both the writer (`global_frame =
frame.copy()`) and readers (`frame = global_frame.copy()`) copy under
`frame_lock`.  To reason about aliasing we model a heap of mutable frame
cells addressed by allocation order. -/

/-- A heap of mutable frame cells: `size` cells have been allocated, at
addresses `0, ..., size - 1`; `val` gives the current pixel data of each
cell. -/
structure Heap where
  size : Nat
  val : Nat → Frame

/-- Read the pixel data currently stored in cell `a`. -/
def Heap.read (h : Heap) (a : Nat) : Frame := h.val a

/-- Mutate cell `a` in place (e.g. the camera driver overwriting its
buffer, or a consumer drawing onto its frame). -/
def Heap.write (h : Heap) (a : Nat) (v : Frame) : Heap :=
  { h with val := fun x => if x = a then v else h.val x }

/-- Allocate a fresh cell holding `v`; returns the new heap and the fresh
address. -/
def Heap.alloc (h : Heap) (v : Frame) : Heap × Nat :=
  ({ size := h.size + 1, val := fun x => if x = h.size then v else h.val x },
   h.size)

/-- `frame.copy()`: allocate a fresh cell with the current contents of
cell `a`. -/
def copyFrame (h : Heap) (a : Nat) : Heap × Nat :=
  h.alloc (h.read a)

/-- `with frame_lock: global_frame = frame.copy()` (lines 57–58): the
writer publishes a copy of its frame at `src`; the returned address is the
new frame-buffer content. -/
def publish (h : Heap) (src : Nat) : Heap × Nat :=
  copyFrame h src

/-- `with frame_lock: frame = global_frame.copy()` (lines 79–82): a reader
takes an independent copy of the buffered frame at `buf`. -/
def snapshot (h : Heap) (buf : Nat) : Heap × Nat :=
  copyFrame h buf

/-- One publish of a freshly read frame value `v` (the acquisition loop
reads a new frame each cycle and publishes its copy); the buffer address
is replaced by the fresh cell. -/
def publishStep (p : Heap × Option Nat) (v : Frame) : Heap × Option Nat :=
  let q := p.1.alloc v
  (q.1, some q.2)

/-- A whole sequence of publishes of frame values, starting from an empty
buffer. -/
def publishSeq (h : Heap) (vs : List Frame) : Heap × Option Nat :=
  vs.foldl publishStep (h, none)

/-- The copy-independence contract of the frame buffer around one
`publish` from source cell `src` followed by one `snapshot`: the buffer
cell is fresh (distinct from the writer's source); it holds the published
pixel data; the writer overwriting its source frame with `v` afterwards
does not change the buffered frame; the snapshot cell is fresh (distinct
from the buffer cell); it holds the buffered pixel data; and the reader
overwriting its snapshot copy with `w` does not change the buffered
frame. -/
def bufferIndependence (h : Heap) (src : Nat) (v w : Frame) : Prop :=
  let p := publish h src
  let h1 := p.1
  let b := p.2
  let h2 := h1.write src v
  let q := snapshot h2 b
  let h3 := q.1
  let c := q.2
  b ≠ src ∧
  h1.read b = h.read src ∧
  h2.read b = h1.read b ∧
  c ≠ b ∧
  h3.read c = h2.read b ∧
  (h3.write c w).read b = h3.read b

/-- Most recent write wins: after any non-empty sequence of publishes the
buffer names a cell holding the last published pixel data, and a snapshot
taken then returns a copy equal to it. -/
def publishSeqLastWins (h : Heap) : Prop :=
  ∀ (vs : List Frame) (vlast : Frame), vs.getLast? = some vlast →
    ∃ b, (publishSeq h vs).2 = some b ∧
      (publishSeq h vs).1.read b = vlast ∧
      (snapshot (publishSeq h vs).1 b).1.read
        (snapshot (publishSeq h vs).1 b).2 = vlast

/-! ### Arcade sessions as event sequences -/

/-- One capture request during an Arcade session: the wall-clock time at
which the request arrives, the time at which the scheduled
`resume_arcade_update` fires (2 s later in the source), the frame-buffer
snapshot, the classifier, and the timestamp string used for filenames. -/
structure CaptureEvent where
  captureTime : ℚ
  resumeTime : ℚ
  buffer : Option Frame
  classifier : Frame → List Prediction
  ts : String

/-- One full capture round in Arcade mode: the `on_arcade_capture`
handler runs, and if it left the freeze flag set (i.e. it displayed a
result and scheduled a resume, lines 314–318), the scheduled
`resume_arcade_update` later fires. -/
def arcade_round (s : AppState) (e : CaptureEvent) : AppState :=
  let r := on_arcade_capture s e.captureTime e.buffer e.classifier e.ts
  if r.state.freeze_arcade then resume_arcade_update r.state e.resumeTime
  else r.state

/-- The label an Arcade capture event gets accepted with, if any: the
capture pipeline must see a frame, resolve a label other than
`"Unknown"`, and report confidence ≥ 50 (lines 303–307). -/
def acceptedLabel (e : CaptureEvent) : Option String :=
  match e.buffer with
  | none => none
  | some f =>
      let out := capture_and_identify "arcade" (some f) e.classifier e.ts
      if out.bird_name ≠ "Unknown" ∧ 50 ≤ out.confidence then
        some out.bird_name
      else none

/-! ## Concrete fixtures used by witnesses and counterexamples -/

/-- A concrete one-pixel frame. -/
def testFrame : Frame := [0]

/-- A classifier that never returns a prediction. -/
def emptyClassifier : Frame → List Prediction := fun _ => []

/-- A classifier that always reports an American Robin at score 0.92. -/
def robinClassifier : Frame → List Prediction :=
  fun _ => [{ label := "American Robin", score := 92 / 100 }]

/-- A concrete Arcade capture event that sees the robin classifier. -/
def robinEvent1 : CaptureEvent :=
  { captureTime := 10, resumeTime := 12, buffer := some testFrame,
    classifier := robinClassifier, ts := "t1" }

/-- A second concrete Arcade capture event with the same classifier. -/
def robinEvent2 : CaptureEvent :=
  { captureTime := 20, resumeTime := 22, buffer := some testFrame,
    classifier := robinClassifier, ts := "t2" }

/-- A concrete one-cell heap whose only frame cell holds `testFrame`. -/
def heap1 : Heap :=
  { size := 1, val := fun _ => testFrame }

/-- A concrete freshly-entered Explore state (Arcade fields idle). -/
def exploreLiveState : AppState :=
  { active := Mode.explore, freeze_explore := false, arcade_total := 60,
    arcade_running := false, freeze_arcade := false, arcade_start_time := 0,
    pause_start_time := 0, arcade_score := 0, arcade_birds := ∅ }

/-- A concrete running Arcade state ready to accept a capture. -/
def arcadeLiveState : AppState :=
  { active := Mode.arcade, freeze_explore := false, arcade_total := 60,
    arcade_running := true, freeze_arcade := false, arcade_start_time := 0,
    pause_start_time := 0, arcade_score := 0, arcade_birds := ∅ }

/-- A concrete state with both freeze flags set while a result is being
displayed. -/
def frozenState : AppState :=
  { active := Mode.explore, freeze_explore := true, arcade_total := 60,
    arcade_running := true, freeze_arcade := true, arcade_start_time := 0,
    pause_start_time := 0, arcade_score := 0, arcade_birds := ∅ }

/-- A concrete state in the menu right after leaving Arcade mid-display:
the scheduled `resume_arcade_update` is still pending (freeze flag set,
pause start recorded at time 5) while the menu is the active mode. -/
def menuAfterArcadeExitState : AppState :=
  { active := Mode.menu, freeze_explore := false, arcade_total := 60,
    arcade_running := false, freeze_arcade := true, arcade_start_time := 0,
    pause_start_time := 5, arcade_score := 0, arcade_birds := ∅ }

/-! ## Helper lemmas -/

/-- With a frame in the buffer, the capture pipeline returns that frame. -/
@[simp]
theorem capture_and_identify_frame_some (mode ts : String) (f : Frame)
    (classifier : Frame → List Prediction) :
    (capture_and_identify mode (some f) classifier ts).frame = some f := rfl

/-- Reading the freshly allocated cell returns the allocated value. -/
theorem Heap.alloc_read_self (h : Heap) (v : Frame) :
    (h.alloc v).1.read (h.alloc v).2 = v := by
  simp [Heap.alloc, Heap.read]

/-- Allocation does not disturb previously allocated cells. -/
theorem Heap.alloc_read_lt (h : Heap) (v : Frame) (a : Nat)
    (ha : a < h.size) : (h.alloc v).1.read a = h.read a := by
  simp only [Heap.alloc, Heap.read]
  rw [if_neg (Nat.ne_of_lt ha)]

/-- Writing one cell does not disturb any other cell. -/
theorem Heap.write_read_ne (h : Heap) (a b : Nat) (v : Frame)
    (hab : b ≠ a) : (h.write a v).read b = h.read b := by
  simp only [Heap.write, Heap.read]
  rw [if_neg hab]

/-- Folding acquisition cycles over any starting buffer yields the most
recent successful read, falling back to the starting buffer content. -/
theorem foldl_publish_cycle (reads : List (Option Frame)) :
    ∀ b : Option Frame,
      reads.foldl publish_cycle b =
        Option.or (spec_lastSuccessfulFrame reads) b := by
  induction reads with
  | nil => intro b; simp [spec_lastSuccessfulFrame]
  | cons r rs ih =>
      intro b
      cases r with
      | none =>
          simp [List.foldl_cons, publish_cycle, spec_lastSuccessfulFrame, ih,
            Option.or_none]
      | some f =>
          simp [List.foldl_cons, publish_cycle, spec_lastSuccessfulFrame, ih,
            Option.or_assoc]

/-- Any non-empty publish sequence leaves the buffer naming a cell that
holds the last published value, whatever heap and buffer it starts
from. -/
theorem publishSeq_loop_getLast :
    ∀ (vs : List Frame) (p : Heap × Option Nat) (vlast : Frame),
      vs.getLast? = some vlast →
      ∃ b, (vs.foldl publishStep p).2 = some b ∧
        (vs.foldl publishStep p).1.read b = vlast := by
  intro vs
  induction vs with
  | nil => intro p vlast h; simp at h
  | cons v rest ih =>
      intro p vlast h
      cases rest with
      | nil =>
          simp only [List.getLast?_singleton, Option.some.injEq] at h
          subst h
          exact ⟨p.1.size, rfl, Heap.alloc_read_self p.1 v⟩
      | cons v2 rest2 =>
          rw [List.getLast?_cons_cons] at h
          simpa using ih (publishStep p v) vlast h

/-- The robin classifier gets accepted by the decision policy: the
resolved label is the raw label and the confidence is 92. -/
theorem robin_capture_accepted (mode ts : String) (f : Frame) :
    (capture_and_identify mode (some f) robinClassifier ts).bird_name
      = "American Robin" ∧
    (capture_and_identify mode (some f) robinClassifier ts).confidence
      = (92 : ℚ) := by
  have h50 : (50 : ℚ) ≤ 92 / 100 * 100 := by norm_num
  have hex : looneyExcluded "American Robin" = false := by decide
  constructor <;>
    · simp [capture_and_identify, robinClassifier, h50, hex]
      norm_num

/-- `robinEvent1` is accepted with label `"American Robin"`. -/
theorem acceptedLabel_robinEvent1 :
    acceptedLabel robinEvent1 = some "American Robin" := by
  obtain ⟨hn, hc⟩ := robin_capture_accepted "arcade" "t1" testFrame
  simp [acceptedLabel, robinEvent1, hn, hc]
  norm_num

/-- Exact effect of one Arcade capture round when the session is running
and not frozen: the session keeps running, the freeze flag is clear again
after the round, and the bird set and score are updated exactly by the
accepted label, if any. -/
theorem arcade_round_spec (s : AppState) (e : CaptureEvent)
    (hr : s.arcade_running = true) (hf : s.freeze_arcade = false) :
    (arcade_round s e).arcade_running = true ∧
    (arcade_round s e).freeze_arcade = false ∧
    (arcade_round s e).arcade_birds =
      (match acceptedLabel e with
       | some n => insert n s.arcade_birds
       | none => s.arcade_birds) ∧
    (arcade_round s e).arcade_score =
      (match acceptedLabel e with
       | some n =>
           if n ∈ s.arcade_birds then s.arcade_score else s.arcade_score + 1
       | none => s.arcade_score) := by
  cases hb : e.buffer with
  | none =>
      simp [arcade_round, on_arcade_capture, acceptedLabel, hb, hr, hf,
        capture_and_identify]
  | some f =>
      by_cases hacc :
          (capture_and_identify "arcade" (some f) e.classifier
            e.ts).bird_name ≠ "Unknown" ∧
          50 ≤ (capture_and_identify "arcade" (some f) e.classifier
            e.ts).confidence
      · by_cases hmem :
            (capture_and_identify "arcade" (some f) e.classifier
              e.ts).bird_name ∈ s.arcade_birds
        · simp [arcade_round, on_arcade_capture, acceptedLabel, hb, hr, hf,
            hacc, hmem, resume_arcade_update, capture_and_identify_frame_some]
        · simp [arcade_round, on_arcade_capture, acceptedLabel, hb, hr, hf,
            hacc, hmem, resume_arcade_update, capture_and_identify_frame_some]
      · simp [arcade_round, on_arcade_capture, acceptedLabel, hb, hr, hf,
          hacc, resume_arcade_update, capture_and_identify_frame_some]

/-- Folding Arcade capture rounds over a running, unfrozen session: the
session stays running and unfrozen, the bird set grows by exactly the
accepted labels, and the score–cardinality invariant is preserved. -/
theorem arcade_fold_spec (es : List CaptureEvent) :
    ∀ s : AppState, s.arcade_running = true → s.freeze_arcade = false →
      (es.foldl arcade_round s).arcade_running = true ∧
      (es.foldl arcade_round s).freeze_arcade = false ∧
      (es.foldl arcade_round s).arcade_birds =
        s.arcade_birds ∪ (es.filterMap acceptedLabel).toFinset ∧
      (s.arcade_score = s.arcade_birds.card →
        (es.foldl arcade_round s).arcade_score =
          (es.foldl arcade_round s).arcade_birds.card) := by
  induction es with
  | nil =>
      intro s hr hf
      exact ⟨hr, hf, by simp, fun h => h⟩
  | cons e es ih =>
      intro s hr hf
      obtain ⟨h1, h2, h3, h4⟩ := arcade_round_spec s e hr hf
      obtain ⟨g1, g2, g3, g4⟩ := ih (arcade_round s e) h1 h2
      rw [List.foldl_cons]
      refine ⟨g1, g2, ?_, ?_⟩
      · rw [g3, h3]
        cases hacc : acceptedLabel e with
        | none => simp [List.filterMap_cons, hacc]
        | some n =>
            simp [List.filterMap_cons, hacc, Finset.insert_union,
              Finset.union_insert]
      · intro hcard
        refine g4 ?_
        rw [h3, h4]
        cases hacc : acceptedLabel e with
        | none => simpa using hcard
        | some n =>
            by_cases hmem : n ∈ s.arcade_birds
            · simp only [hmem, if_pos]
              rw [Finset.insert_eq_self.mpr hmem]
              exact hcard
            · simp only [hmem, if_neg, not_false_iff]
              rw [Finset.card_insert_of_not_mem hmem, hcard]

/-! ## Claim theorems -/

/-- **C1.** For every non-empty classifier prediction list,
`capture_and_identify` resolves the label as follows: if the top
prediction's confidence (score scaled to percent) is < 50, the resolved
label is `"Unknown"`; if confidence is ≥ 50 and the top label contains the
excluded placeholder substring `"looney"` (case-insensitively), the
resolved label is `"Unknown"`; otherwise the resolved label equals the raw
top label.  In all three cases the returned confidence equals the top
prediction's numeric confidence; when the prediction list is empty, the
resolved label is `"Unknown"` and the confidence is 0. -/
theorem capture_decision_policy (mode ts : String) (f : Frame)
    (classifier : Frame → List Prediction) :
    (classifier f = [] →
      (capture_and_identify mode (some f) classifier ts).bird_name = "Unknown" ∧
      (capture_and_identify mode (some f) classifier ts).confidence = 0) ∧
    (∀ top rest, classifier f = top :: rest →
      (capture_and_identify mode (some f) classifier ts).confidence
          = top.score * 100 ∧
      (top.score * 100 < 50 →
        (capture_and_identify mode (some f) classifier ts).bird_name = "Unknown") ∧
      (50 ≤ top.score * 100 → looneyExcluded top.label = true →
        (capture_and_identify mode (some f) classifier ts).bird_name = "Unknown") ∧
      (50 ≤ top.score * 100 → looneyExcluded top.label = false →
        (capture_and_identify mode (some f) classifier ts).bird_name = top.label)) := by
  constructor
  · intro h
    simp [capture_and_identify, h]
  · intro top rest h
    by_cases hc : 50 ≤ top.score * 100 ∧ looneyExcluded top.label = false
    · refine ⟨?_, ?_, ?_, ?_⟩
      · simp [capture_and_identify, h, hc]
      · intro hlt
        exact absurd hc.1 (not_le.mpr hlt)
      · intro _ hex
        rw [hex] at hc
        exact absurd hc.2 (by simp)
      · intro _ _
        simp [capture_and_identify, h, hc]
    · refine ⟨?_, ?_, ?_, ?_⟩
      · simp [capture_and_identify, h, hc]
      · intro _
        simp [capture_and_identify, h, hc]
      · intro _ _
        simp [capture_and_identify, h, hc]
      · intro h50 hex
        exact absurd ⟨h50, hex⟩ hc

/-- Witness for C1 at a concrete accepted prediction. -/
theorem capture_decision_policy_witness :
    (capture_and_identify "captured" (some testFrame) robinClassifier
        "20240101_120000").bird_name = "American Robin" ∧
    (capture_and_identify "captured" (some testFrame) robinClassifier
        "20240101_120000").confidence = (92 / 100 : ℚ) * 100 := by
  have h := capture_decision_policy "captured" "20240101_120000" testFrame
    robinClassifier
  obtain ⟨-, h2⟩ := h
  obtain ⟨hconf, -, -, hacc⟩ :=
    h2 { label := "American Robin", score := 92 / 100 } [] rfl
  exact ⟨hacc (by norm_num) (by decide), hconf⟩

/-- **C2.** A call to `capture_and_identify` while the frame buffer is
empty returns the sentinel `("Unknown", 0, none)` without error, writes no
file and does not invoke the classifier. -/
theorem capture_empty_buffer (mode ts : String)
    (classifier : Frame → List Prediction) :
    capture_and_identify mode none classifier ts =
      { bird_name := "Unknown", confidence := 0, frame := none,
        fileOps := [], classifierCalled := false } := rfl

/-- **C3, counterexample.** The claim says captures are persisted into a
directory named after the mode, explore-scoped for Explore mode.  In the
source, `on_explore_capture` passes the mode string `"captured"` to the
pipeline (line 256), so an Explore capture is saved under
`captured_birds/`, which is not the explore-named directory. -/
theorem explore_capture_not_explore_scoped :
    (on_explore_capture exploreLiveState (some testFrame) emptyClassifier
        "20240101_120000").fileOps.head? =
      some (FileOp.save "captured_birds/bird_20240101_120000.jpg" testFrame) ∧
    "captured_birds/bird_20240101_120000.jpg"
      ≠ "explore_birds/bird_20240101_120000.jpg" := by
  constructor
  · rfl
  · decide

/-- **C3, amended.** For every capture with a non-empty frame buffer, the
frame is persisted into the directory named after the mode string passed
to the pipeline — `captured_birds/` for Explore (whose handler passes
`"captured"`) and `arcade_birds/` for Arcade — first under a provisional
name `bird_<timestamp>.jpg` keyed by the second-resolution timestamp, and
after classification the artifact is renamed so its filename embeds the
resolved label (spaces replaced by underscores) alongside that same
timestamp. -/
theorem capture_artifact_paths (s : AppState) (f : Frame)
    (classifier : Frame → List Prediction) (ts : String) (now : ℚ)
    (hef : s.freeze_explore = false) (har : s.arcade_running = true)
    (haf : s.freeze_arcade = false) :
    (on_explore_capture s (some f) classifier ts).fileOps =
      [FileOp.save ("captured_birds/bird_" ++ ts ++ ".jpg") f,
       FileOp.rename ("captured_birds/bird_" ++ ts ++ ".jpg")
         ("captured_birds/"
           ++ pyReplaceSpaceByUnderscore
                (capture_and_identify "captured" (some f) classifier ts).bird_name
           ++ "_" ++ ts ++ ".jpg")] ∧
    (on_arcade_capture s now (some f) classifier ts).fileOps =
      [FileOp.save ("arcade_birds/bird_" ++ ts ++ ".jpg") f,
       FileOp.rename ("arcade_birds/bird_" ++ ts ++ ".jpg")
         ("arcade_birds/"
           ++ pyReplaceSpaceByUnderscore
                (capture_and_identify "arcade" (some f) classifier ts).bird_name
           ++ "_" ++ ts ++ ".jpg")] := by
  constructor
  · simp only [on_explore_capture, hef]
    rw [if_neg (by simp)]
    rfl
  · simp only [on_arcade_capture, har, haf]
    rw [if_neg (by simp)]
    split_ifs <;> rfl

/-- Witness for C3 (amended) at a concrete state and classifier. -/
theorem capture_artifact_paths_witness :
    arcadeLiveState.freeze_explore = false ∧
    arcadeLiveState.arcade_running = true ∧
    arcadeLiveState.freeze_arcade = false ∧
    ((on_explore_capture arcadeLiveState (some testFrame) robinClassifier
        "20240101_120000").fileOps =
      [FileOp.save ("captured_birds/bird_" ++ "20240101_120000" ++ ".jpg")
        testFrame,
       FileOp.rename ("captured_birds/bird_" ++ "20240101_120000" ++ ".jpg")
         ("captured_birds/"
           ++ pyReplaceSpaceByUnderscore
                (capture_and_identify "captured" (some testFrame)
                  robinClassifier "20240101_120000").bird_name
           ++ "_" ++ "20240101_120000" ++ ".jpg")] ∧
     (on_arcade_capture arcadeLiveState 0 (some testFrame) robinClassifier
        "20240101_120000").fileOps =
      [FileOp.save ("arcade_birds/bird_" ++ "20240101_120000" ++ ".jpg")
        testFrame,
       FileOp.rename ("arcade_birds/bird_" ++ "20240101_120000" ++ ".jpg")
         ("arcade_birds/"
           ++ pyReplaceSpaceByUnderscore
                (capture_and_identify "arcade" (some testFrame)
                  robinClassifier "20240101_120000").bird_name
           ++ "_" ++ "20240101_120000" ++ ".jpg")]) :=
  ⟨rfl, rfl, rfl,
   capture_artifact_paths arcadeLiveState testFrame robinClassifier
     "20240101_120000" 0 rfl rfl rfl⟩

/-- **C5.** Pause compensation: if the countdown remaining is `R` at the
moment an Arcade capture begins (when the pause start is recorded), then
immediately after `resume_arcade_update` fires the countdown recomputed
at the resume time is again exactly `R`, however long the result was
displayed. -/
theorem arcade_pause_compensation (s : AppState) (tc tr : ℚ) (f : Frame)
    (classifier : Frame → List Prediction) (ts : String)
    (hr : s.arcade_running = true) (hf : s.freeze_arcade = false) :
    arcade_remaining
      (resume_arcade_update
        (on_arcade_capture s tc (some f) classifier ts).state tr) tr
      = arcade_remaining s tc := by
  simp only [on_arcade_capture, hr, hf]
  rw [if_neg (by simp)]
  simp only [capture_and_identify_frame_some]
  split_ifs <;> simp [resume_arcade_update, arcade_remaining] <;> ring

/-- Witness for C5 at a concrete running session. -/
theorem arcade_pause_compensation_witness :
    arcadeLiveState.arcade_running = true ∧
    arcadeLiveState.freeze_arcade = false ∧
    arcade_remaining
      (resume_arcade_update
        (on_arcade_capture arcadeLiveState 10 (some testFrame)
          robinClassifier "20240101_120000").state 12) 12
      = arcade_remaining arcadeLiveState 10 :=
  ⟨rfl, rfl,
   arcade_pause_compensation arcadeLiveState 10 12 testFrame robinClassifier
     "20240101_120000" rfl rfl⟩

/-- **C6.** Freeze gating: a capture request received while the mode's
freeze flag is set (Explore or Arcade), or an Arcade request while the
session is not running, is a complete no-op — the state is returned
unchanged (score, seen-label set, freeze flags and timing fields
included), no file operation happens, and the classifier is not
invoked. -/
theorem freeze_gating (s : AppState) (gf : Option Frame)
    (classifier : Frame → List Prediction) (ts : String) (now : ℚ) :
    (s.freeze_explore = true →
      on_explore_capture s gf classifier ts =
        { state := s, fileOps := [], classifierCalled := false }) ∧
    (s.freeze_arcade = true ∨ s.arcade_running = false →
      on_arcade_capture s now gf classifier ts =
        { state := s, fileOps := [], classifierCalled := false }) := by
  constructor
  · intro h
    simp [on_explore_capture, h]
  · intro h
    rcases h with h | h <;> simp [on_arcade_capture, h]

/-- Witness for C6 at a concrete frozen state. -/
theorem freeze_gating_witness :
    frozenState.freeze_explore = true ∧
    (frozenState.freeze_arcade = true ∨ frozenState.arcade_running = false) ∧
    on_explore_capture frozenState (some testFrame) robinClassifier "t" =
      { state := frozenState, fileOps := [], classifierCalled := false } ∧
    on_arcade_capture frozenState 0 (some testFrame) robinClassifier "t" =
      { state := frozenState, fileOps := [], classifierCalled := false } :=
  ⟨rfl, Or.inl rfl,
   (freeze_gating frozenState (some testFrame) robinClassifier "t" 0).1 rfl,
   (freeze_gating frozenState (some testFrame) robinClassifier "t" 0).2
     (Or.inl rfl)⟩

/-- **C7.** For every cycle of the acquisition loop: a successful read
publishes the frame into the buffer, a failed read leaves the buffer
unchanged; hence after any sequence of cycles starting from the empty
buffer, the buffer holds the most recent successfully-acquired frame, or
remains the empty sentinel if no acquisition ever succeeded. -/
theorem acquisition_loop_invariant :
    (∀ (b : Option Frame) (f : Frame), publish_cycle b (some f) = some f) ∧
    (∀ b : Option Frame, publish_cycle b none = b) ∧
    (∀ reads : List (Option Frame),
      reads.foldl publish_cycle none = spec_lastSuccessfulFrame reads) := by
  refine ⟨fun b f => rfl, fun b => rfl, fun reads => ?_⟩
  rw [foldl_publish_cycle, Option.or_none]

/-- **C8.** The frame buffer's snapshot after the last publish returns a
copy equal to the last published frame (most recent write wins), and the
copy is independent: neither the writer mutating its source frame nor a
reader mutating its returned copy changes the buffered frame. -/
theorem frame_buffer_copy_semantics (h : Heap) (src : Nat) (v w : Frame)
    (hsrc : src < h.size) :
    bufferIndependence h src v w ∧ publishSeqLastWins h := by
  constructor
  · have hb : (publish h src).2 = h.size := rfl
    have hbs : h.size ≠ src := (Nat.ne_of_lt hsrc).symm
    refine ⟨hbs, Heap.alloc_read_self h (h.read src), ?_, ?_, ?_, ?_⟩
    · exact Heap.write_read_ne _ src h.size v hbs
    · show h.size + 1 ≠ h.size
      omega
    · exact Heap.alloc_read_self _ _
    · exact Heap.write_read_ne _ (h.size + 1) h.size w (by omega)
  · intro vs vlast hlast
    obtain ⟨b, hb, hread⟩ := publishSeq_loop_getLast vs (h, none) vlast hlast
    refine ⟨b, hb, hread, ?_⟩
    calc (snapshot (publishSeq h vs).1 b).1.read (snapshot (publishSeq h vs).1 b).2
        = (publishSeq h vs).1.read b := Heap.alloc_read_self _ _
      _ = vlast := hread

/-- Witness for C8 on a concrete one-cell heap. -/
theorem frame_buffer_copy_semantics_witness :
    0 < heap1.size ∧
    (bufferIndependence heap1 0 [1] [2] ∧ publishSeqLastWins heap1) :=
  ⟨by decide, frame_buffer_copy_semantics heap1 0 [1] [2] (by decide)⟩

/-- **C4.** Arcade scoring is idempotent per label within a session:
starting from `start_arcade`, after any sequence of capture rounds the
score equals the number of distinct accepted labels seen, and one round
increments the score by exactly 1 when its accepted label is novel and by
0 when the label was already seen. -/
theorem arcade_score_counts_distinct (s0 : AppState) (t0 : ℚ)
    (es : List CaptureEvent) :
    ((es.foldl arcade_round (start_arcade s0 t0)).arcade_score
      = ((es.filterMap acceptedLabel).toFinset).card) ∧
    (∀ (s : AppState) (e : CaptureEvent) (n : String),
      s.arcade_running = true → s.freeze_arcade = false →
      acceptedLabel e = some n →
      ((n ∉ s.arcade_birds →
          (arcade_round s e).arcade_score = s.arcade_score + 1) ∧
       (n ∈ s.arcade_birds →
          (arcade_round s e).arcade_score = s.arcade_score))) := by
  constructor
  · obtain ⟨-, -, h3, h4⟩ := arcade_fold_spec es (start_arcade s0 t0) rfl rfl
    rw [h4 (by simp [start_arcade]), h3]
    simp [start_arcade]
  · intro s e n hr hf hacc
    obtain ⟨-, -, -, h4⟩ := arcade_round_spec s e hr hf
    rw [hacc] at h4
    constructor
    · intro hmem
      rw [h4]
      simp [hmem]
    · intro hmem
      rw [h4]
      simp [hmem]

/-- Witness for C4: one accepted robin capture on a fresh running session
scores exactly one point. -/
theorem arcade_score_counts_distinct_witness :
    arcadeLiveState.arcade_running = true ∧
    arcadeLiveState.freeze_arcade = false ∧
    acceptedLabel robinEvent1 = some "American Robin" ∧
    "American Robin" ∉ arcadeLiveState.arcade_birds ∧
    (arcade_round arcadeLiveState robinEvent1).arcade_score
      = arcadeLiveState.arcade_score + 1 :=
  ⟨rfl, rfl, acceptedLabel_robinEvent1, Finset.not_mem_empty _,
   ((arcade_score_counts_distinct arcadeLiveState 0 []).2 arcadeLiveState
      robinEvent1 "American Robin" rfl rfl acceptedLabel_robinEvent1).1
     (Finset.not_mem_empty _)⟩

/-- **C10.** At every point in an Arcade session the score equals the
cardinality of the seen-label set: entering Arcade resets both to 0 and
empty together; each round either leaves both unchanged or adds one novel
label and one point in the same step; and after any sequence of rounds
from `start_arcade` the score equals the bird set's cardinality. -/
theorem arcade_score_card_invariant (s0 : AppState) (t0 : ℚ)
    (es : List CaptureEvent) :
    (start_arcade s0 t0).arcade_score = 0 ∧
    (start_arcade s0 t0).arcade_birds = ∅ ∧
    (∀ (s : AppState) (e : CaptureEvent),
      s.arcade_running = true → s.freeze_arcade = false →
      (((arcade_round s e).arcade_birds = s.arcade_birds ∧
          (arcade_round s e).arcade_score = s.arcade_score) ∨
       (∃ n, n ∉ s.arcade_birds ∧
          (arcade_round s e).arcade_birds = insert n s.arcade_birds ∧
          (arcade_round s e).arcade_score = s.arcade_score + 1))) ∧
    ((es.foldl arcade_round (start_arcade s0 t0)).arcade_score
      = (es.foldl arcade_round (start_arcade s0 t0)).arcade_birds.card) := by
  refine ⟨rfl, rfl, ?_, ?_⟩
  · intro s e hr hf
    obtain ⟨-, -, h3, h4⟩ := arcade_round_spec s e hr hf
    cases hacc : acceptedLabel e with
    | none =>
        rw [hacc] at h3 h4
        exact Or.inl ⟨h3, h4⟩
    | some n =>
        rw [hacc] at h3 h4
        by_cases hmem : n ∈ s.arcade_birds
        · refine Or.inl ⟨?_, ?_⟩
          · rw [h3]
            simp [Finset.insert_eq_self, hmem]
          · rw [h4]
            simp [hmem]
        · refine Or.inr ⟨n, hmem, h3, ?_⟩
          rw [h4]
          simp [hmem]
  · obtain ⟨-, -, -, h4⟩ := arcade_fold_spec es (start_arcade s0 t0) rfl rfl
    exact h4 (by simp [start_arcade])

/-- Witness for C10: the per-step alternative at a concrete fresh session
and accepted robin capture, alongside the invariant after two rounds. -/
theorem arcade_score_card_invariant_witness :
    arcadeLiveState.arcade_running = true ∧
    arcadeLiveState.freeze_arcade = false ∧
    (((arcade_round arcadeLiveState robinEvent1).arcade_birds
        = arcadeLiveState.arcade_birds ∧
      (arcade_round arcadeLiveState robinEvent1).arcade_score
        = arcadeLiveState.arcade_score) ∨
     (∃ n, n ∉ arcadeLiveState.arcade_birds ∧
        (arcade_round arcadeLiveState robinEvent1).arcade_birds
          = insert n arcadeLiveState.arcade_birds ∧
        (arcade_round arcadeLiveState robinEvent1).arcade_score
          = arcadeLiveState.arcade_score + 1)) ∧
    (([robinEvent1, robinEvent2].foldl arcade_round
        (start_arcade exploreLiveState 0)).arcade_score
      = ([robinEvent1, robinEvent2].foldl arcade_round
          (start_arcade exploreLiveState 0)).arcade_birds.card) :=
  ⟨rfl, rfl,
   (arcade_score_card_invariant exploreLiveState 0
      [robinEvent1, robinEvent2]).2.2.1 arcadeLiveState robinEvent1 rfl rfl,
   (arcade_score_card_invariant exploreLiveState 0
      [robinEvent1, robinEvent2]).2.2.2⟩

/-- **C9, counterexample.** The claim says every scheduled callback
re-checks that its mode is still the active one, so stale callbacks leave
the Arcade session's start time and freeze flags unchanged.  But
`resume_arcade_update` (lines 320–323) performs no such check: fired in a
state where the menu is active (after leaving Arcade mid-display), it
still shifts the session start time and clears the freeze flag. -/
theorem stale_resume_mutates_arcade_state :
    menuAfterArcadeExitState.active = Mode.menu ∧
    menuAfterArcadeExitState.arcade_running = false ∧
    (resume_arcade_update menuAfterArcadeExitState 10).arcade_start_time
      ≠ menuAfterArcadeExitState.arcade_start_time ∧
    (resume_arcade_update menuAfterArcadeExitState 10).freeze_arcade
      ≠ menuAfterArcadeExitState.freeze_arcade := by
  refine ⟨rfl, rfl, ?_, by decide⟩
  norm_num [resume_arcade_update, menuAfterArcadeExitState]

/-- **C9, amended.** The periodic refresh/countdown tick callbacks
(`update_explore_frame`, `update_arcade_frame`) re-check whether their
mode is still the active one and are complete no-ops when it is not; the
resume-after-display callbacks, however, do not re-check:
`resume_arcade_update` unconditionally advances the session start time by
the recorded pause duration and clears the Arcade freeze flag, and
`resume_explore` unconditionally clears the Explore freeze flag — though
neither ever changes the score or the seen-label set. -/
theorem stale_callbacks_behavior (s : AppState) (now : ℚ)
    (gf : Option Frame) :
    (s.active ≠ Mode.arcade → update_arcade_frame s now gf = (s, false)) ∧
    (s.active ≠ Mode.explore → update_explore_frame s gf = (s, false)) ∧
    ((resume_arcade_update s now).arcade_start_time
        = s.arcade_start_time + (now - s.pause_start_time) ∧
     (resume_arcade_update s now).freeze_arcade = false ∧
     (resume_arcade_update s now).arcade_score = s.arcade_score ∧
     (resume_arcade_update s now).arcade_birds = s.arcade_birds ∧
     (resume_arcade_update s now).arcade_running = s.arcade_running) ∧
    ((resume_explore s).freeze_explore = false ∧
     (resume_explore s).arcade_score = s.arcade_score ∧
     (resume_explore s).arcade_birds = s.arcade_birds) := by
  refine ⟨?_, ?_, ⟨rfl, rfl, rfl, rfl, rfl⟩, ⟨rfl, rfl, rfl⟩⟩
  · intro h
    simp [update_arcade_frame, h]
  · intro h
    simp [update_explore_frame, h]

/-- Witness for C9 (amended) at the concrete stale-menu state. -/
theorem stale_callbacks_behavior_witness :
    menuAfterArcadeExitState.active ≠ Mode.arcade ∧
    menuAfterArcadeExitState.active ≠ Mode.explore ∧
    update_arcade_frame menuAfterArcadeExitState 10 (some testFrame)
      = (menuAfterArcadeExitState, false) ∧
    update_explore_frame menuAfterArcadeExitState (some testFrame)
      = (menuAfterArcadeExitState, false) ∧
    (resume_arcade_update menuAfterArcadeExitState 10).freeze_arcade
      = false :=
  ⟨by decide, by decide,
   (stale_callbacks_behavior menuAfterArcadeExitState 10
      (some testFrame)).1 (by decide),
   (stale_callbacks_behavior menuAfterArcadeExitState 10
      (some testFrame)).2.1 (by decide),
   (stale_callbacks_behavior menuAfterArcadeExitState 10
      (some testFrame)).2.2.1.2.1⟩

end BirdApp
